import Mathlib

/-!
Shallow embedding of the data pipeline of `src/app.py` (dengue dashboard,
Recife 2024).  The dataframe is modelled as a list of rows; each pandas
operation used by the pipeline is rendered as a list function on the columns
the pipeline actually reads.
-/

/-- Case status enumeration.  Modelled from the spec: the code of app.py has
no explicit status type; it encodes statuses through classification codes
(code 5 removed at load time, codes 10, 11, 12 treated as confirmed). -/
inductive CaseStatus where
  | Confirmed
  | Discarded
  | UnderInvestigation
  | Inconclusive
deriving DecidableEq, Repr

/-- Modelled from the spec: the case classifier table (spec section 4.3),
a pure total function of the classification code; app.py has no classifier
function, only the constants on lines 48 and 96. -/
def caseStatus (code : Option Int) : CaseStatus :=
  match code with
  | none => CaseStatus.UnderInvestigation
  | some c =>
      if c = 5 then CaseStatus.Discarded
      else if c = 10 ∨ c = 11 ∨ c = 12 then CaseStatus.Confirmed
      else CaseStatus.Inconclusive

/-- One raw CSV row after header normalization, restricted to the columns the
pipeline reads.  A cell is `none` when the cell is missing (NaN).  The
notification date cell carries the result of the coercing date parse
(pd.to_datetime with errors = coerce): `some d` is a parsed date, represented
as the day offset from 2024-01-01 (a Monday), and `none` is a missing or
unparseable date (NaT). -/
structure RawRow where
  dt_notific : Option Nat
  classi_fin : Option String
  id_distrit : Option String
  nm_bairro : Option String
deriving DecidableEq, Repr

/-- Value of a decimal digit character, `none` for any other character. -/
def digitVal (c : Char) : Option Nat :=
  if c.isDigit then some (c.toNat - 48) else none

/-- Decimal value of a nonempty all-digit character list. -/
def parseNatChars (cs : List Char) : Option Nat :=
  if cs = [] then none
  else cs.foldl (fun acc c => acc.bind (fun n => (digitVal c).map (fun d => n * 10 + d))) (some 0)

/-- pd.to_numeric with errors = coerce, on integer-valued cells: a missing or
unparseable cell becomes `none` (NaN). -/
def toNumeric (cell : Option String) : Option Int :=
  cell.bind (fun s =>
    match s.toList with
    | [] => none
    | c :: t =>
        if c = Char.ofNat 45 then (parseNatChars t).map (fun n => -(n : Int))
        else (parseNatChars (c :: t)).map (fun n => (n : Int)))

/-- The district dictionary of app.py lines 15-24 (MAPA_DISTRITOS), as its
lookup function: eight codes 117-124. -/
def MAPA_DISTRITOS (c : Int) : Option String :=
  if c = 117 then some "DS I - Centro Expandido"
  else if c = 118 then some "DS II - Encruzilhada-Beberibe"
  else if c = 119 then some "DS III - Casa Amarela-Dois Irmãos"
  else if c = 120 then some "DS IV - Caxangá-Várzea"
  else if c = 121 then some "DS V - Afogados-Tejipió"
  else if c = 122 then some "DS VI - Ibura-Boa Viagem"
  else if c = 123 then some "DS VII - Noroeste"
  else if c = 124 then some "DS VIII - Jordão"
  else none

/-- Lines 52-54 of app.py: map the coerced district code through the
dictionary, then fillna with the code column rendered as strings
(astype(str)): an unmapped code falls back to the raw code rendered as a
string, and a missing or unparseable code to the string `"nan"` (the string
form of NaN).  Pandas may render a float code as `"117.0"`; the digits-only
rendering used here keeps the same fallback policy, which is all the claims
depend on. -/
def nomeDistrito (idd : Option Int) : String :=
  match idd with
  | none => "nan"
  | some c => (MAPA_DISTRITOS c).getD (toString c)

/-- Line 44 of app.py: dt.isocalendar().week.  Dates are day offsets from
2024-01-01, a Monday that starts ISO week 1 of 2024, so inside the year the
ISO week is offset / 7 + 1. -/
def isoWeek (d : Nat) : Nat := d / 7 + 1

/-- A record of the loaded dataframe: the columns produced by
carregar_dados_2024 that the views read later. -/
structure Row where
  dt_notific : Option Nat
  semana_epidemiologica : Option Nat
  classi_fin : Option Int
  nome_distrito : String
  nm_bairro : Option String
deriving DecidableEq, Repr

/-- The per-row normalization done by carregar_dados_2024 (lines 39-54):
date already coerced, week from the date, classification code and district
code coerced to numbers, district name resolved, neighborhood kept raw. -/
def loadRow (r : RawRow) : Row :=
  { dt_notific := r.dt_notific
    semana_epidemiologica := r.dt_notific.map isoWeek
    classi_fin := toNumeric r.classi_fin
    nome_distrito := nomeDistrito (toNumeric r.id_distrit)
    nm_bairro := r.nm_bairro }

/-- carregar_dados_2024 (lines 27-59): normalize every row, then line 48
drops the rows whose classification code equals 5.  A NaN code compares
unequal to 5 in pandas, so rows with missing codes are kept. -/
def carregar_dados_2024 (rows : List RawRow) : List Row :=
  (rows.map loadRow).filter (fun r => r.classi_fin != some 5)

/-- Line 90 of app.py: district filter, isin over the selected names. -/
def df_filtrado_geo (df : List Row) (distritos : List String) : List Row :=
  df.filter (fun r => distritos.contains r.nome_distrito)

/-- Line 96 of app.py. -/
def codigos_confirmados : List Int := [10, 11, 12]

/-- Line 97 of app.py: isin over a list of classification codes; a NaN code
is never a member (pandas isin is false on NaN). -/
def filtroStatus (df : List Row) (codes : List Int) : List Row :=
  df.filter (fun r =>
    match r.classi_fin with
    | some c => codes.contains c
    | none => false)

/-- Lines 95-101 of app.py: in confirmed-only mode keep the rows whose code
is one of 10, 11, 12; otherwise keep every row. -/
def df_final (df : List Row) (apenasConfirmados : Bool) : List Row :=
  if apenasConfirmados then filtroStatus df codigos_confirmados else df

/-- Line 124 of app.py. -/
def total_casos (df : List Row) : Nat := df.length

/-- Line 125 of app.py: rows whose classification code equals 12. -/
def casos_graves (df : List Row) : Nat :=
  (df.filter (fun r => r.classi_fin == some 12)).length

/-- Line 128 of app.py: percentage of grave cases among the filtered rows,
zero when the view is empty. -/
def percentual_graves (df : List Row) : Rat :=
  if total_casos df > 0 then
    (casos_graves df : Rat) / (total_casos df : Rat) * 100
  else 0

/-- Largest element of a list of naturals, zero on the empty list. -/
def listMaxNat : List Nat → Nat
  | [] => 0
  | x :: t => max x (listMaxNat t)

/-- Multiplicity of the most frequent value of a list of strings. -/
def maxCount (xs : List String) : Nat :=
  listMaxNat (xs.dedup.map (fun v => xs.count v))

/-- The values of maximal multiplicity, as computed by pandas Series.mode
(NaN cells are dropped by the caller). -/
def modals (xs : List String) : List String :=
  xs.dedup.filter (fun v => xs.count v == maxCount xs)

/-- Byte-wise comparison of character lists, true when the first is less than
or equal to the second in lexicographic order. -/
def leChars : List Char → List Char → Bool
  | [], _ => true
  | _ :: _, [] => false
  | a :: s, b :: t =>
      if a.toNat < b.toNat then true
      else if b.toNat < a.toNat then false
      else leChars s t

/-- Lexicographic order on strings. -/
def leString (a b : String) : Bool := leChars a.toList b.toList

/-- Least element of a list of strings, `none` on the empty list. -/
def listMinString : List String → Option String
  | [] => none
  | x :: t =>
      match listMinString t with
      | none => some x
      | some m => some (if leString x m then x else m)

/-- mode()[0]: pandas returns the modal values sorted ascending and [0] takes
the least of them.  `none` models the KeyError raised when mode() is empty,
that is, when every cell of a nonempty column is NaN. -/
def modeHead (xs : List String) : Option String :=
  listMinString (modals xs)

/-- Lines 130-133 of app.py: the critical neighborhood.  On an empty view the
code takes the `"-"` branch; on a nonempty view it evaluates mode()[0] over
the raw nm_bairro column, with NaN cells dropped and no other normalization. -/
def bairro_pior (df : List Row) : Option String :=
  if df.isEmpty then some "-"
  else modeHead (df.filterMap (fun r => r.nm_bairro))

/-- Modelled from the spec: the mode aggregate of spec section 4.5, which
excludes the sentinel "UNINFORMED" and yields "none" when nothing remains;
app.py has no such exclusion. -/
def bairro_pior_spec (df : List Row) : String :=
  match modeHead ((df.filterMap (fun r => r.nm_bairro)).filter (fun b => b != "UNINFORMED")) with
  | some v => v
  | none => "none"

/-- Lines 207-208 of app.py, core of value_counts over the raw neighborhood
column: the (value, count) pairs with NaN cells dropped and values counted
verbatim, with no trimming, case folding or sentinel mapping.  The descending
sort and head(10) of the source only reorder and truncate this list. -/
def casos_por_bairro (df : List Row) : List (String × Nat) :=
  let bs := df.filterMap (fun r => r.nm_bairro)
  bs.dedup.map (fun b => (b, bs.count b))

/-- Insertion into a sorted list of naturals. -/
def insOrd (x : Nat) : List Nat → List Nat
  | [] => [x]
  | y :: t => if x ≤ y then x :: y :: t else y :: insOrd x t

/-- Insertion sort on naturals, used to model the ascending group keys. -/
def sortNat (l : List Nat) : List Nat := l.foldr insOrd []

/-- Lines 145-146 of app.py: group the rows by notification date (groupby
drops the NaT rows), count per date, sorted by date ascending. -/
def casos_diarios (df : List Row) : List (Nat × Nat) :=
  (sortNat (df.filterMap (fun r => r.dt_notific)).dedup).map
    (fun d => (d, (df.filter (fun r => r.dt_notific == some d)).length))

/-- Line 152 of app.py: group the rows by epidemiological week (groupby drops
the rows whose week is NaN), count per week, ascending. -/
def casos_semanais (df : List Row) : List (Nat × Nat) :=
  (sortNat (df.filterMap (fun r => r.semana_epidemiologica)).dedup).map
    (fun w => (w, (df.filter (fun r => r.semana_epidemiologica == some w)).length))

/-- Line 149 of app.py: rolling(7).mean() over the daily count column.  At
position i the window is the trailing run of entries ending at i; pandas
emits NaN (here `none`) unless the window holds the full 7 points, since
min_periods defaults to the window size. -/
def media_movel_7d (casos : List Nat) : List (Option Rat) :=
  (List.range casos.length).map (fun i =>
    if ((casos.take (i + 1)).drop (i + 1 - 7)).length = 7 then
      some (((((casos.take (i + 1)).drop (i + 1 - 7)).sum : Nat) : Rat) / 7)
    else none)

/-- Line 111 of app.py: to_csv writes with the pandas default delimiter. -/
def sepExport : Char := Char.ofNat 44

/-- Line 31 of app.py: read_csv splits on a semicolon. -/
def sepLoader : Char := Char.ofNat 59

/-- Field joining of one to_csv line: fields separated by the delimiter. -/
def joinSep (sep : Char) : List (List Char) → List Char
  | [] => []
  | [f] => f
  | f :: g :: t => f ++ sep :: joinSep sep (g :: t)

/-- Field splitting of one read_csv line: accumulate the current field and
cut at every occurrence of the delimiter. -/
def splitSep (sep : Char) : List Char → List Char → List (List Char)
  | [], acc => [acc.reverse]
  | c :: t, acc =>
      if c = sep then acc.reverse :: splitSep sep t []
      else splitSep sep t (c :: acc)

/-- One line of the exported CSV. -/
def toCsvLine (sep : Char) (fields : List String) : String :=
  String.mk (joinSep sep (fields.map String.toList))

/-- One line as read back by the loader. -/
def parseCsvLine (sep : Char) (line : String) : List String :=
  (splitSep sep line.toList []).map String.mk

/-! Helper lemmas. -/

lemma mem_carregar_elim {rows : List RawRow} {r : Row}
    (h : r ∈ carregar_dados_2024 rows) :
    (∃ raw ∈ rows, r = loadRow raw) ∧ r.classi_fin ≠ some 5 := by
  unfold carregar_dados_2024 at h
  rw [List.mem_filter] at h
  obtain ⟨hmem, hp⟩ := h
  refine ⟨?_, by simpa [bne_iff_ne] using hp⟩
  obtain ⟨raw, hraw, hr⟩ := List.mem_map.mp hmem
  exact ⟨raw, hraw, hr.symm⟩

lemma toDigitsCore_len (b : Nat) :
    ∀ (fuel n : Nat) (ds : List Char),
      ds.length + 1 ≤ (Nat.toDigitsCore b (fuel + 1) n ds).length := by
  intro fuel
  induction fuel with
  | zero =>
      intro n ds
      simp only [Nat.toDigitsCore]
      split <;> simp [Nat.toDigitsCore]
  | succ f ih =>
      intro n ds
      simp only [Nat.toDigitsCore]
      split
      · simp
      · have h2 := ih (n / b) (Nat.digitChar (n % b) :: ds)
        simp only [Nat.toDigitsCore, List.length_cons] at h2
        omega

lemma natRepr_data_ne_nil (n : Nat) : (Nat.repr n).data ≠ [] := by
  have h := toDigitsCore_len 10 n n []
  intro hcon
  simp only [Nat.repr, List.asString, Nat.toDigits] at hcon
  rw [hcon] at h
  simp at h

lemma intToString_ne_empty (c : Int) : toString c ≠ "" := by
  have hdata : (toString c).data ≠ [] := by
    cases c with
    | ofNat n =>
        show (Int.repr (Int.ofNat n)).data ≠ []
        simpa [Int.repr] using natRepr_data_ne_nil n
    | negSucc n =>
        show (("-" ++ Nat.repr (n + 1))).data ≠ []
        rw [String.data_append]
        simp
  intro hcon
  exact hdata (by rw [hcon])

lemma mapaDistritos_name_ne_empty (c : Int) (name : String)
    (hm : MAPA_DISTRITOS c = some name) : name ≠ "" := by
  unfold MAPA_DISTRITOS at hm
  split_ifs at hm
  all_goals injection hm with h
  all_goals subst h
  all_goals decide

/-! Claim theorems. -/

/-- Claim C10: the Dataset produced by carregar_dados_2024 contains no record
whose classification code equals 5; line 48 removes the discarded rows once at
load time, so no downstream view can observe one. -/
theorem C10_no_discarded_in_dataset (rows : List RawRow) (r : Row)
    (h : r ∈ carregar_dados_2024 rows) : r.classi_fin ≠ some 5 :=
  (mem_carregar_elim h).2

theorem C10_no_discarded_in_dataset_witness :
    (loadRow ⟨none, some "10", some "117", some "IBURA"⟩).classi_fin ≠ some 5 :=
  C10_no_discarded_in_dataset [⟨none, some "10", some "117", some "IBURA"⟩] _ (by decide)

/-- Claim C1, amended: the classifier (modelled from the spec table) maps 5 to
Discarded, 10, 11, 12 to Confirmed, a missing code to UnderInvestigation and
any other integer to Inconclusive, and is total; but records with status
Discarded are NOT representable in the Dataset: line 48 of app.py removes
every row with code 5 at load time. -/
theorem C1_classifier_amended :
    (caseStatus (some 5) = CaseStatus.Discarded)
    ∧ (caseStatus none = CaseStatus.UnderInvestigation)
    ∧ (∀ c : Int, (c = 10 ∨ c = 11 ∨ c = 12) → caseStatus (some c) = CaseStatus.Confirmed)
    ∧ (∀ c : Int, c ≠ 5 → ¬(c = 10 ∨ c = 11 ∨ c = 12) →
        caseStatus (some c) = CaseStatus.Inconclusive)
    ∧ (∀ (rows : List RawRow) (r : Row), r ∈ carregar_dados_2024 rows →
        caseStatus r.classi_fin ≠ CaseStatus.Discarded) := by
  refine ⟨by decide, rfl, ?_, ?_, ?_⟩
  · intro c hc
    rcases hc with h | h | h <;> subst h <;> decide
  · intro c h5 hother
    simp only [caseStatus]
    rw [if_neg h5, if_neg hother]
  · intro rows r hr hst
    have h5 := (mem_carregar_elim hr).2
    cases hc : r.classi_fin with
    | none => rw [hc] at hst; simp [caseStatus] at hst
    | some c =>
        by_cases h : c = 5
        · exact h5 (by rw [hc, h])
        · by_cases h2 : c = 10 ∨ c = 11 ∨ c = 12
          · rw [hc] at hst; simp [caseStatus, h, h2] at hst
          · rw [hc] at hst; simp [caseStatus, h, h2] at hst

theorem C1_classifier_witness :
    caseStatus (some 10) = CaseStatus.Confirmed
    ∧ caseStatus (some 7) = CaseStatus.Inconclusive
    ∧ caseStatus (loadRow ⟨none, some "11", some "118", none⟩).classi_fin ≠ CaseStatus.Discarded :=
  ⟨C1_classifier_amended.2.2.1 10 (Or.inl rfl),
   C1_classifier_amended.2.2.2.1 7 (by decide) (by decide),
   C1_classifier_amended.2.2.2.2 [⟨none, some "11", some "118", none⟩] _ (by decide)⟩

/-- Claim C1, counterexample: a raw row with classification code 5 is
classified Discarded, yet loading it yields an empty Dataset, so a record of
status Discarded is not representable in the Dataset. -/
theorem C1_counterexample :
    caseStatus (toNumeric (some "5")) = CaseStatus.Discarded
    ∧ carregar_dados_2024 [⟨none, some "5", some "117", some "IBURA"⟩] = [] := by
  exact ⟨by decide, by decide⟩

/-- Claim C2, counterexample: a row whose district code 999 is not in the
table gets the raw numeric code rendered as a string for its district name,
not an unidentified-district sentinel, and a missing code gets the string
"nan". -/
theorem C2_counterexample :
    (carregar_dados_2024 [⟨none, some "10", some "999", none⟩]).map
        (fun r => r.nome_distrito) = [toString (999 : Int)]
    ∧ toString (999 : Int) = "999"
    ∧ nomeDistrito none = "nan" := by
  exact ⟨by decide, by decide, rfl⟩

/-- Claim C2, amended: the district name is never the empty string, but the
fallback for a code outside the table is the raw numeric code rendered as a
string (and the string "nan" for a missing or unparseable code), not an
explicit unidentified-district sentinel. -/
theorem C2_district_fallback_amended :
    (∀ idd : Option Int, nomeDistrito idd ≠ "")
    ∧ nomeDistrito none = "nan"
    ∧ (∀ c : Int, MAPA_DISTRITOS c = none → nomeDistrito (some c) = toString c)
    ∧ (∀ (rows : List RawRow) (r : Row), r ∈ carregar_dados_2024 rows →
        r.nome_distrito ≠ "") := by
  have hmain : ∀ idd : Option Int, nomeDistrito idd ≠ "" := by
    intro idd
    cases idd with
    | none => decide
    | some c =>
        cases hm : MAPA_DISTRITOS c with
        | none => simpa [nomeDistrito, hm] using intToString_ne_empty c
        | some name => simpa [nomeDistrito, hm] using mapaDistritos_name_ne_empty c name hm
  refine ⟨hmain, rfl, ?_, ?_⟩
  · intro c hm
    simp [nomeDistrito, hm]
  · intro rows r hr
    obtain ⟨⟨raw, _, hload⟩, -⟩ := mem_carregar_elim hr
    rw [hload]
    exact hmain _

theorem C2_district_fallback_witness :
    nomeDistrito (some 999) = toString (999 : Int)
    ∧ (loadRow ⟨none, some "10", some "999", none⟩).nome_distrito ≠ "" :=
  ⟨C2_district_fallback_amended.2.2.1 999 (by decide),
   C2_district_fallback_amended.2.2.2 [⟨none, some "10", some "999", none⟩] _ (by decide)⟩

/-- Claim C4, counterexample: on a view with one grave case among two records
the computed metric is 50, the percentage, and not the ratio 1 / 2 the claim
states: line 128 multiplies the ratio by 100. -/
theorem C4_counterexample :
    percentual_graves [⟨none, none, some 12, "DS", none⟩, ⟨none, none, some 10, "DS", none⟩] = 50
    ∧ ((casos_graves [⟨none, none, some 12, "DS", none⟩, ⟨none, none, some 10, "DS", none⟩] : Rat)
        / (total_casos [⟨none, none, some 12, "DS", none⟩, ⟨none, none, some 10, "DS", none⟩] : Rat)
        = 1 / 2)
    ∧ (50 : Rat) ≠ 1 / 2 := by
  have h1 : casos_graves [⟨none, none, some 12, "DS", none⟩, ⟨none, none, some 10, "DS", none⟩]
      = 1 := by decide
  have h2 : total_casos [⟨none, none, some 12, "DS", none⟩, ⟨none, none, some 10, "DS", none⟩]
      = 2 := by decide
  refine ⟨?_, ?_, by norm_num⟩
  · rw [percentual_graves, h1, h2]; norm_num
  · rw [h1, h2]; norm_num

/-- Claim C4, amended: the severity metric of line 128 is the percentage, 100
times the ratio of grave cases: it equals 0 when the view is empty and
satisfies metric times total = graves times 100 otherwise; the computation is
total and never divides by zero. -/
theorem C4_percentage_amended (df : List Row) :
    (total_casos df = 0 → percentual_graves df = 0)
    ∧ (total_casos df ≠ 0 →
        percentual_graves df * (total_casos df : Rat) = (casos_graves df : Rat) * 100) := by
  constructor
  · intro h
    simp [percentual_graves, h]
  · intro h
    have hpos : 0 < total_casos df := Nat.pos_of_ne_zero h
    have hne : ((total_casos df : Nat) : Rat) ≠ 0 := by exact_mod_cast h
    simp only [percentual_graves, if_pos hpos]
    field_simp

theorem C4_percentage_witness :
    percentual_graves [⟨none, none, some 12, "DS1", none⟩]
        * (total_casos [⟨none, none, some 12, "DS1", none⟩] : Rat)
      = (casos_graves [⟨none, none, some 12, "DS1", none⟩] : Rat) * 100 :=
  (C4_percentage_amended _).2 (by decide)

lemma filtroStatus_nil_codes (df : List Row) : filtroStatus df [] = [] := by
  induction df with
  | nil => rfl
  | cons r t ih =>
      unfold filtroStatus at ih ⊢
      cases hr : r.classi_fin with
      | none =>
          rw [List.filter_cons, if_neg (by simp [hr])]
          exact ih
      | some c =>
          rw [List.filter_cons, if_neg (by simp [hr, List.contains])]
          exact ih

/-- Claim C8: an empty district selection or an empty status set yields an
empty FilteredView, and every downstream aggregate on the empty view reports
zero, the empty series, or the "-" sentinel, with every computation total. -/
theorem C8_empty_selection (df : List Row) (apenas : Bool) :
    df_filtrado_geo df [] = []
    ∧ filtroStatus df [] = []
    ∧ df_final (df_filtrado_geo df []) apenas = []
    ∧ total_casos ([] : List Row) = 0
    ∧ casos_graves ([] : List Row) = 0
    ∧ percentual_graves ([] : List Row) = 0
    ∧ bairro_pior ([] : List Row) = some "-"
    ∧ casos_diarios ([] : List Row) = []
    ∧ casos_semanais ([] : List Row) = []
    ∧ media_movel_7d [] = [] := by
  have hgeo : df_filtrado_geo df [] = [] := by
    simp [df_filtrado_geo]
  refine ⟨hgeo, filtroStatus_nil_codes df, ?_, rfl, rfl,
    by norm_num [percentual_graves, total_casos], rfl, rfl, rfl, rfl⟩
  rw [hgeo]
  cases apenas <;> rfl

/-- Claim C6, counterexample: app.py counts raw nm_bairro values verbatim, so
the variants with different whitespace and case are distinct categories and
the mode is the raw string, not the upper-cased trimmed form the claim
states. -/
theorem C6_counterexample :
    bairro_pior
      [⟨none, none, none, "D", some "  ibura "⟩,
       ⟨none, none, none, "D", some "  ibura "⟩,
       ⟨none, none, none, "D", some "IBURA"⟩] = some "  ibura "
    ∧ "  ibura " ≠ "IBURA"
    ∧ (casos_por_bairro
        [⟨none, none, none, "D", some "  ibura "⟩,
         ⟨none, none, none, "D", some "  ibura "⟩,
         ⟨none, none, none, "D", some "IBURA"⟩]).length = 2 := by
  exact ⟨by decide, by decide, by decide⟩

/-- Claim C6, amended: the code performs no neighborhood normalization at all:
no trimming, no upper-casing, no UNINFORMED sentinel.  The categories of the
neighborhood aggregates are exactly the raw string values present in the view
(missing cells dropped), each counted by literal string equality. -/
theorem C6_verbatim_categories_amended (df : List Row) (b : String) (k : Nat) :
    (b, k) ∈ casos_por_bairro df ↔
      (∃ r ∈ df, r.nm_bairro = some b)
        ∧ k = (df.filterMap (fun r => r.nm_bairro)).count b := by
  simp only [casos_por_bairro]
  constructor
  · intro h
    obtain ⟨a, ha, heq⟩ := List.mem_map.mp h
    rw [Prod.mk.injEq] at heq
    obtain ⟨rfl, hk⟩ := heq
    subst hk
    have hb : a ∈ df.filterMap (fun r => r.nm_bairro) := List.mem_dedup.mp ha
    obtain ⟨r, hr, hrb⟩ := List.mem_filterMap.mp hb
    exact ⟨⟨r, hr, hrb⟩, rfl⟩
  · rintro ⟨⟨r, hr, hrb⟩, rfl⟩
    exact List.mem_map.mpr
      ⟨b, List.mem_dedup.mpr (List.mem_filterMap.mpr ⟨r, hr, hrb⟩), rfl⟩

lemma splitSep_no_sep (sep : Char) (f : List Char) (hf : sep ∉ f) :
    ∀ acc, splitSep sep f acc = [acc.reverse ++ f] := by
  induction f with
  | nil => intro acc; simp [splitSep]
  | cons c t ih =>
      intro acc
      have hc : c ≠ sep := fun h => hf (h ▸ List.mem_cons_self c t)
      have ht : sep ∉ t := fun h => hf (List.mem_cons_of_mem _ h)
      simp [splitSep, hc, ih ht]

lemma splitSep_sep_append (sep : Char) (f : List Char) (rest : List Char)
    (hf : sep ∉ f) :
    ∀ acc, splitSep sep (f ++ sep :: rest) acc
      = (acc.reverse ++ f) :: splitSep sep rest [] := by
  induction f with
  | nil => intro acc; simp [splitSep]
  | cons c t ih =>
      intro acc
      have hc : c ≠ sep := fun h => hf (h ▸ List.mem_cons_self c t)
      have ht : sep ∉ t := fun h => hf (List.mem_cons_of_mem _ h)
      simp [splitSep, hc, ih ht]

lemma split_join (sep : Char) :
    ∀ fs : List (List Char), fs ≠ [] → (∀ f ∈ fs, sep ∉ f) →
      splitSep sep (joinSep sep fs) [] = fs := by
  intro fs
  induction fs with
  | nil => intro h; exact absurd rfl h
  | cons f t ih =>
      intro _ hsep
      cases t with
      | nil =>
          simp [joinSep, splitSep_no_sep sep f (hsep f (List.mem_cons_self f []))]
      | cons g u =>
          have hf : sep ∉ f := hsep f (by simp)
          rw [joinSep, splitSep_sep_append sep f _ hf]
          simp [ih (by simp) (fun x hx => hsep x (List.mem_cons_of_mem _ hx))]

/-- Claim C7, counterexample: the export of line 111 writes with the pandas
default comma delimiter while the Record Parser of line 31 splits on a
semicolon, so re-parsing the exported header through the parser yields one
merged column instead of the original columns: the round trip fails. -/
theorem C7_counterexample :
    parseCsvLine sepLoader (toCsvLine sepExport ["dt_notific", "classi_fin"])
      = ["dt_notific,classi_fin"]
    ∧ ["dt_notific,classi_fin"] ≠ ["dt_notific", "classi_fin"] := by
  exact ⟨by decide, by decide⟩

/-- Claim C7, amended: the export is comma-delimited (pandas to_csv default),
not the semicolon format the loader reads, so re-parsing through the Record
Parser does not round-trip; splitting with the export delimiter itself
recovers every comma-free field exactly, original column names included. -/
theorem C7_roundtrip_amended (fields : List String) (hne : fields ≠ [])
    (hsep : ∀ f ∈ fields, sepExport ∉ f.toList) :
    parseCsvLine sepExport (toCsvLine sepExport fields) = fields := by
  unfold parseCsvLine toCsvLine
  rw [show (String.mk (joinSep sepExport (fields.map String.toList))).toList
        = joinSep sepExport (fields.map String.toList) from rfl]
  rw [split_join sepExport (fields.map String.toList) (by simpa using hne)
        (by intro f hfm; obtain ⟨s, hs, rfl⟩ := List.mem_map.mp hfm; exact hsep s hs)]
  rw [List.map_map]
  simp only [show String.mk ∘ String.toList = id from funext fun s => rfl, List.map_id]

theorem C7_roundtrip_witness :
    parseCsvLine sepExport
        (toCsvLine sepExport ["dt_notific", "classi_fin", "id_distrit", "nm_bairro"])
      = ["dt_notific", "classi_fin", "id_distrit", "nm_bairro"] :=
  C7_roundtrip_amended _ (by decide) (by decide)

lemma getD_eq_getElem_of_lt (l : List Nat) (n : Nat) (h : n < l.length) :
    l.getD n 0 = l[n] := by
  rw [List.getD_eq_getElem?_getD, List.getElem?_eq_getElem h, Option.getD_some]

lemma janela_eq (casos : List Nat) (i : Nat) (h6 : 6 ≤ i) (hi : i < casos.length) :
    (casos.take (i + 1)).drop (i + 1 - 7)
      = (List.range 7).map (fun k => casos.getD (i - 6 + k) 0) := by
  apply List.ext_getElem
  · simp only [List.length_drop, List.length_take, List.length_map, List.length_range]
    omega
  · intro k h1 h2
    have hb : i + 1 - 7 + k < casos.length := by
      simp only [List.length_drop, List.length_take] at h1
      omega
    have hidx : i + 1 - 7 + k = i - 6 + k := by omega
    rw [List.getElem_drop, List.getElem_take, List.getElem_map, List.getElem_range,
      ← hidx, getD_eq_getElem_of_lt casos (i + 1 - 7 + k) hb]

/-- Claim C3: for every daily count series, the 7-point trailing moving
average at position i equals the arithmetic mean of the counts at positions
i-6 through i when 6 ≤ i, and is undefined (none, the NaN of the source), not
zero-padded, at every position i < 6. -/
theorem C3_media_movel (casos : List Nat) (i : Nat) (hi : i < casos.length) :
    (media_movel_7d casos).getD i none =
      if 6 ≤ i then
        some (((((List.range 7).map (fun k => casos.getD (i - 6 + k) 0)).sum : Nat) : Rat) / 7)
      else none := by
  unfold media_movel_7d
  rw [List.getD_eq_getElem?_getD, List.getElem?_eq_getElem (by simpa using hi),
    Option.getD_some, List.getElem_map, List.getElem_range]
  by_cases h6 : 6 ≤ i
  · rw [if_pos h6, janela_eq casos i h6 hi]
    simp
  · rw [if_neg h6, if_neg ?hc]
    case hc =>
      simp only [List.length_drop, List.length_take]
      omega

theorem C3_media_movel_witness :
    (media_movel_7d [5, 3, 8, 2, 9, 4, 6, 7, 1, 5]).getD 6 none = some ((37 : Rat) / 7)
    ∧ (media_movel_7d [5, 3, 8, 2, 9, 4, 6, 7, 1, 5]).getD 3 none = none := by
  constructor
  · have h := C3_media_movel [5, 3, 8, 2, 9, 4, 6, 7, 1, 5] 6 (by decide)
    have hs : ((List.range 7).map
        (fun k => ([5, 3, 8, 2, 9, 4, 6, 7, 1, 5] : List Nat).getD (6 - 6 + k) 0)).sum
        = 37 := by decide
    rw [h, if_pos (by decide), hs]
    norm_num
  · have h := C3_media_movel [5, 3, 8, 2, 9, 4, 6, 7, 1, 5] 3 (by decide)
    rw [h, if_neg (by decide)]

lemma filterMap_dt_filter (df : List Row) :
    (df.filter (fun r => r.dt_notific.isSome)).filterMap (fun r => r.dt_notific)
      = df.filterMap (fun r => r.dt_notific) := by
  induction df with
  | nil => rfl
  | cons r t ih =>
      cases hr : r.dt_notific with
      | none => simp [List.filter_cons, List.filterMap_cons, hr, ih]
      | some d => simp [List.filter_cons, List.filterMap_cons, hr, ih]

lemma filter_dt_eq_some (df : List Row) (d : Nat) :
    (df.filter (fun r => r.dt_notific.isSome)).filter (fun r => r.dt_notific == some d)
      = df.filter (fun r => r.dt_notific == some d) := by
  induction df with
  | nil => rfl
  | cons r t ih =>
      cases hr : r.dt_notific with
      | none => simp [List.filter_cons, hr, ih]
      | some e =>
          by_cases he : e = d
          · simp [List.filter_cons, hr, he, ih]
          · simp [List.filter_cons, hr, he, ih]

lemma casos_diarios_filter (df : List Row) :
    casos_diarios df = casos_diarios (df.filter (fun r => r.dt_notific.isSome)) := by
  unfold casos_diarios
  rw [filterMap_dt_filter]
  refine List.map_congr_left ?_
  intro d _
  exact congrArg (Prod.mk d) (congrArg List.length (filter_dt_eq_some df d).symm)

lemma filterMap_semana_filter (df : List Row)
    (hprop : ∀ r ∈ df, r.semana_epidemiologica = r.dt_notific.map isoWeek) :
    (df.filter (fun r => r.dt_notific.isSome)).filterMap (fun r => r.semana_epidemiologica)
      = df.filterMap (fun r => r.semana_epidemiologica) := by
  induction df with
  | nil => rfl
  | cons r t ih =>
      have hr := hprop r (by simp)
      have ht : ∀ x ∈ t, x.semana_epidemiologica = x.dt_notific.map isoWeek :=
        fun x hx => hprop x (by simp [hx])
      cases hd : r.dt_notific with
      | none =>
          have hs : r.semana_epidemiologica = none := by rw [hr, hd]; rfl
          simp [List.filter_cons, List.filterMap_cons, hd, hs, ih ht]
      | some d => simp [List.filter_cons, List.filterMap_cons, hd, ih ht]

lemma filter_semana_eq_some (df : List Row) (w : Nat)
    (hprop : ∀ r ∈ df, r.semana_epidemiologica = r.dt_notific.map isoWeek) :
    (df.filter (fun r => r.dt_notific.isSome)).filter
        (fun r => r.semana_epidemiologica == some w)
      = df.filter (fun r => r.semana_epidemiologica == some w) := by
  induction df with
  | nil => rfl
  | cons r t ih =>
      have hr := hprop r (by simp)
      have ht : ∀ x ∈ t, x.semana_epidemiologica = x.dt_notific.map isoWeek :=
        fun x hx => hprop x (by simp [hx])
      cases hd : r.dt_notific with
      | none =>
          have hs : r.semana_epidemiologica = none := by rw [hr, hd]; rfl
          simp [List.filter_cons, hd, hs, ih ht]
      | some d => simp [List.filter_cons, hd, ih ht]

lemma casos_semanais_filter (rows : List RawRow) :
    casos_semanais (carregar_dados_2024 rows)
      = casos_semanais ((carregar_dados_2024 rows).filter (fun r => r.dt_notific.isSome)) := by
  have hprop : ∀ r ∈ carregar_dados_2024 rows,
      r.semana_epidemiologica = r.dt_notific.map isoWeek := by
    intro r hr
    obtain ⟨⟨raw, -, hload⟩, -⟩ := mem_carregar_elim hr
    rw [hload]
    rfl
  unfold casos_semanais
  rw [filterMap_semana_filter _ hprop]
  refine List.map_congr_left ?_
  intro w _
  exact congrArg (Prod.mk w)
    (congrArg List.length (filter_semana_eq_some _ w hprop).symm)

/-- Claim C5, counterexample: a record with an unparseable notification date
is not always retained in the Dataset: when its classification code is 5, the
discard filter of line 48 drops it, so the universal retention stated by the
claim fails. -/
theorem C5_counterexample :
    carregar_dados_2024 [⟨none, some "5", none, none⟩] = []
    ∧ (⟨none, some "5", none, none⟩ : RawRow).dt_notific = none := by
  exact ⟨by decide, rfl⟩

/-- Claim C5, amended: every record whose notification date fails to parse
and which survives the discard filter (classification code other than 5) is
retained in the Dataset with a null date and a null epidemiological week, and
null-dated records are excluded from every date-keyed aggregate: both the
daily series and the weekly series are unchanged when the null-dated records
are removed first. -/
theorem C5_null_dates_amended (rows : List RawRow) (raw : RawRow)
    (hmem : raw ∈ rows) (hdate : raw.dt_notific = none)
    (hkeep : toNumeric raw.classi_fin ≠ some 5) :
    (loadRow raw ∈ carregar_dados_2024 rows
      ∧ (loadRow raw).dt_notific = none
      ∧ (loadRow raw).semana_epidemiologica = none)
    ∧ (∀ df : List Row,
        casos_diarios df = casos_diarios (df.filter (fun r => r.dt_notific.isSome)))
    ∧ (∀ rows2 : List RawRow,
        casos_semanais (carregar_dados_2024 rows2)
          = casos_semanais ((carregar_dados_2024 rows2).filter
              (fun r => r.dt_notific.isSome))) := by
  refine ⟨⟨?_, ?_, ?_⟩, casos_diarios_filter, casos_semanais_filter⟩
  · unfold carregar_dados_2024
    refine List.mem_filter.mpr ⟨List.mem_map_of_mem loadRow hmem, ?_⟩
    simpa [loadRow, bne_iff_ne] using hkeep
  · simp [loadRow, hdate]
  · simp [loadRow, hdate]

theorem C5_null_dates_witness :
    loadRow ⟨none, some "10", some "117", some "IBURA"⟩
        ∈ carregar_dados_2024 [⟨none, some "10", some "117", some "IBURA"⟩]
    ∧ casos_diarios ([⟨some 3, none, none, "D", none⟩] : List Row)
        = casos_diarios (([⟨some 3, none, none, "D", none⟩] : List Row).filter
            (fun r => r.dt_notific.isSome)) := by
  have h := C5_null_dates_amended [⟨none, some "10", some "117", some "IBURA"⟩]
    ⟨none, some "10", some "117", some "IBURA"⟩ (by decide) rfl (by decide)
  exact ⟨h.1.1, h.2.1 _⟩

lemma leChars_refl (a : List Char) : leChars a a = true := by
  induction a with
  | nil => rfl
  | cons c t ih => simp [leChars, ih]

lemma leChars_total (a b : List Char) : leChars a b = true ∨ leChars b a = true := by
  induction a generalizing b with
  | nil => left; rfl
  | cons c s ih =>
      cases b with
      | nil => right; rfl
      | cons d t =>
          rcases Nat.lt_trichotomy c.toNat d.toNat with h | h | h
          · left; simp [leChars, h]
          · rcases ih t with h2 | h2
            · left; simp [leChars, h, Nat.lt_irrefl, h2]
            · right; simp [leChars, h, Nat.lt_irrefl, h2]
          · right; simp [leChars, h]

lemma leChars_trans (a b c : List Char) (hab : leChars a b = true)
    (hbc : leChars b c = true) : leChars a c = true := by
  induction a generalizing b c with
  | nil => rfl
  | cons x s ih =>
      cases b with
      | nil => simp [leChars] at hab
      | cons y t =>
          cases c with
          | nil => simp [leChars] at hbc
          | cons z u =>
              simp only [leChars] at hab hbc ⊢
              by_cases h1 : x.toNat < y.toNat <;> by_cases h2 : y.toNat < z.toNat
              · simp [Nat.lt_trans h1 h2]
              · by_cases h3 : z.toNat < y.toNat
                · simp [h2, h3] at hbc
                · simp [show x.toNat < z.toNat by omega]
              · by_cases h3 : y.toNat < x.toNat
                · simp [h1, h3] at hab
                · simp [show x.toNat < z.toNat by omega]
              · by_cases h3 : y.toNat < x.toNat
                · simp [h1, h3] at hab
                · by_cases h4 : z.toNat < y.toNat
                  · simp [h2, h4] at hbc
                  · simp [h1, h3] at hab
                    simp [h2, h4] at hbc
                    simp [show ¬ x.toNat < z.toNat by omega,
                      show ¬ z.toNat < x.toNat by omega]
                    exact ih t u hab hbc

lemma leString_refl (a : String) : leString a a = true := leChars_refl a.toList

lemma leString_total (a b : String) : leString a b = true ∨ leString b a = true :=
  leChars_total a.toList b.toList

lemma leString_trans (a b c : String) (hab : leString a b = true)
    (hbc : leString b c = true) : leString a c = true :=
  leChars_trans a.toList b.toList c.toList hab hbc

lemma listMinString_spec (l : List String) (hne : l ≠ []) :
    ∃ m, listMinString l = some m ∧ m ∈ l ∧ ∀ y ∈ l, leString m y = true := by
  induction l with
  | nil => exact absurd rfl hne
  | cons x t ih =>
      by_cases ht : t = []
      · subst ht
        refine ⟨x, by simp [listMinString], by simp, ?_⟩
        intro y hy
        rw [List.mem_singleton] at hy
        subst hy
        exact leString_refl _
      · obtain ⟨m, hm1, hm2, hm3⟩ := ih ht
        by_cases hle : leString x m = true
        · refine ⟨x, ?_, by simp, ?_⟩
          · simp [listMinString, hm1, hle]
          · intro y hy
            rcases List.mem_cons.mp hy with h | h
            · subst h; exact leString_refl _
            · exact leString_trans x m y hle (hm3 y h)
        · have hmx : leString m x = true := by
            rcases leString_total x m with h | h
            · exact absurd h hle
            · exact h
          refine ⟨m, ?_, List.mem_cons_of_mem x hm2, ?_⟩
          · simp [listMinString, hm1, hle]
          · intro y hy
            rcases List.mem_cons.mp hy with h | h
            · subst h; exact hmx
            · exact hm3 y h

lemma le_listMaxNat (l : List Nat) (x : Nat) (hx : x ∈ l) : x ≤ listMaxNat l := by
  induction l with
  | nil => cases hx
  | cons y t ih =>
      simp only [listMaxNat]
      rcases List.mem_cons.mp hx with h | h
      · subst h; exact Nat.le_max_left _ _
      · exact le_trans (ih h) (Nat.le_max_right _ _)

lemma listMaxNat_mem (l : List Nat) (hne : l ≠ []) : listMaxNat l ∈ l := by
  induction l with
  | nil => exact absurd rfl hne
  | cons y t ih =>
      by_cases ht : t = []
      · subst ht; simp [listMaxNat]
      · simp only [listMaxNat]
        rcases Nat.le_total y (listMaxNat t) with h | h
        · rw [Nat.max_eq_right h]
          exact List.mem_cons_of_mem _ (ih ht)
        · rw [Nat.max_eq_left h]
          exact List.mem_cons_self _ _

lemma count_le_maxCount (bs : List String) (w : String) (hw : w ∈ bs) :
    bs.count w ≤ maxCount bs := by
  unfold maxCount
  exact le_listMaxNat _ _ (List.mem_map_of_mem _ (List.mem_dedup.mpr hw))

lemma exists_modal (bs : List String) (hne : bs ≠ []) :
    ∃ v, v ∈ bs.dedup ∧ bs.count v = maxCount bs := by
  have hd : bs.dedup ≠ [] := by
    cases bs with
    | nil => exact absurd rfl hne
    | cons b t => exact List.ne_nil_of_mem (List.mem_dedup.mpr (List.mem_cons_self b t))
  have hmapne : bs.dedup.map (fun v => bs.count v) ≠ [] := by simpa using hd
  obtain ⟨v, hv, hveq⟩ := List.mem_map.mp (listMaxNat_mem _ hmapne)
  exact ⟨v, hv, hveq⟩

lemma modals_ne_nil (bs : List String) (hne : bs ≠ []) : modals bs ≠ [] := by
  obtain ⟨v, hv, hc⟩ := exists_modal bs hne
  refine List.ne_nil_of_mem (a := v) ?_
  unfold modals
  exact List.mem_filter.mpr ⟨hv, by simpa using hc⟩

lemma mem_modals (bs : List String) (v : String) (h : v ∈ modals bs) :
    v ∈ bs ∧ bs.count v = maxCount bs := by
  unfold modals at h
  obtain ⟨h1, h2⟩ := List.mem_filter.mp h
  exact ⟨List.mem_dedup.mp h1, by simpa using h2⟩

lemma modals_mem_of (bs : List String) (w : String) (hw : w ∈ bs)
    (hc : bs.count w = maxCount bs) : w ∈ modals bs := by
  unfold modals
  exact List.mem_filter.mpr ⟨List.mem_dedup.mpr hw, by simpa using hc⟩

/-- Claim C9, counterexample: the code excludes no UNINFORMED sentinel: on a
view where "UNINFORMED" is the most frequent raw value the mode aggregate of
lines 130-131 returns it, while the spec-modelled mode returns the most
frequent remaining neighborhood. -/
theorem C9_counterexample :
    bairro_pior
      [⟨none, none, none, "D", some "UNINFORMED"⟩,
       ⟨none, none, none, "D", some "UNINFORMED"⟩,
       ⟨none, none, none, "D", some "OUTRO"⟩] = some "UNINFORMED"
    ∧ bairro_pior_spec
      [⟨none, none, none, "D", some "UNINFORMED"⟩,
       ⟨none, none, none, "D", some "UNINFORMED"⟩,
       ⟨none, none, none, "D", some "OUTRO"⟩] = "OUTRO"
    ∧ "UNINFORMED" ≠ "OUTRO" := by
  exact ⟨by decide, by decide, by decide⟩

/-- Claim C9, amended: the mode aggregate returns the most frequent RAW
neighborhood value, with no sentinel exclusion (only missing cells are
dropped); on an empty view it returns the explicit "-" sentinel rather than
failing; ties are broken deterministically by taking the least value in
lexicographic order, as pandas mode returns its values sorted and the code
indexes the first. -/
theorem C9_mode_amended (df : List Row) :
    (df = [] → bairro_pior df = some "-")
    ∧ (df ≠ [] → df.filterMap (fun r => r.nm_bairro) ≠ [] →
        ∃ v, bairro_pior df = some v
          ∧ v ∈ df.filterMap (fun r => r.nm_bairro)
          ∧ (∀ w ∈ df.filterMap (fun r => r.nm_bairro),
              (df.filterMap (fun r => r.nm_bairro)).count w
                ≤ (df.filterMap (fun r => r.nm_bairro)).count v)
          ∧ (∀ w ∈ df.filterMap (fun r => r.nm_bairro),
              (df.filterMap (fun r => r.nm_bairro)).count w
                = (df.filterMap (fun r => r.nm_bairro)).count v →
              leString v w = true)) := by
  constructor
  · intro h; subst h; rfl
  · intro hne hbs
    obtain ⟨m, hm1, hm2, hm3⟩ :=
      listMinString_spec (modals (df.filterMap (fun r => r.nm_bairro)))
        (modals_ne_nil _ hbs)
    obtain ⟨hmbs, hmc⟩ := mem_modals _ m hm2
    refine ⟨m, ?_, hmbs, ?_, ?_⟩
    · unfold bairro_pior
      rw [if_neg (by simpa [List.isEmpty_iff] using hne)]
      exact hm1
    · intro w hw
      rw [hmc]
      exact count_le_maxCount _ w hw
    · intro w hw hcw
      exact hm3 w (modals_mem_of _ w hw (by rw [hcw, hmc]))

theorem C9_mode_witness :
    ∃ v, bairro_pior
        [⟨none, none, none, "D", some "CASA AMARELA"⟩,
         ⟨none, none, none, "D", some "IBURA"⟩,
         ⟨none, none, none, "D", some "IBURA"⟩] = some v
      ∧ v ∈ ([⟨none, none, none, "D", some "CASA AMARELA"⟩,
              ⟨none, none, none, "D", some "IBURA"⟩,
              ⟨none, none, none, "D", some "IBURA"⟩] : List Row).filterMap
            (fun r => r.nm_bairro)
      ∧ (∀ w ∈ ([⟨none, none, none, "D", some "CASA AMARELA"⟩,
                 ⟨none, none, none, "D", some "IBURA"⟩,
                 ⟨none, none, none, "D", some "IBURA"⟩] : List Row).filterMap
            (fun r => r.nm_bairro),
          (([⟨none, none, none, "D", some "CASA AMARELA"⟩,
             ⟨none, none, none, "D", some "IBURA"⟩,
             ⟨none, none, none, "D", some "IBURA"⟩] : List Row).filterMap
            (fun r => r.nm_bairro)).count w
            ≤ (([⟨none, none, none, "D", some "CASA AMARELA"⟩,
                 ⟨none, none, none, "D", some "IBURA"⟩,
                 ⟨none, none, none, "D", some "IBURA"⟩] : List Row).filterMap
                (fun r => r.nm_bairro)).count v)
      ∧ (∀ w ∈ ([⟨none, none, none, "D", some "CASA AMARELA"⟩,
                 ⟨none, none, none, "D", some "IBURA"⟩,
                 ⟨none, none, none, "D", some "IBURA"⟩] : List Row).filterMap
            (fun r => r.nm_bairro),
          (([⟨none, none, none, "D", some "CASA AMARELA"⟩,
             ⟨none, none, none, "D", some "IBURA"⟩,
             ⟨none, none, none, "D", some "IBURA"⟩] : List Row).filterMap
            (fun r => r.nm_bairro)).count w
            = (([⟨none, none, none, "D", some "CASA AMARELA"⟩,
                 ⟨none, none, none, "D", some "IBURA"⟩,
                 ⟨none, none, none, "D", some "IBURA"⟩] : List Row).filterMap
                (fun r => r.nm_bairro)).count v →
          leString v w = true) :=
  (C9_mode_amended
    [⟨none, none, none, "D", some "CASA AMARELA"⟩,
     ⟨none, none, none, "D", some "IBURA"⟩,
     ⟨none, none, none, "D", some "IBURA"⟩]).2 (by decide) (by decide)
